import Mathlib

/-!
Verification model of the fastsocket repository (src/fastsocket/message.py,
client.py, server.py).

The wire text layer (json.dumps / json.loads, UTF-8, and the websockets
transport) is an external collaborator; a serialized message is modelled by
its JSON tree.  Machine-level details that the claims do not touch (logging
output, real clock time) are abstracted: logging is recorded as returned
values, and elapsed real time is delegated to the asyncio.wait_for contract.
-/

mutual
/-- JSON values, as produced by json.loads.  Numbers are modelled as integers
(the payloads exercised by the claims are JSON-representable and the
identifier field is an integer). -/
inductive JVal where
  | null : JVal
  | bool : Bool → JVal
  | num : Int → JVal
  | str : String → JVal
  | arr : JArr → JVal
  | obj : JObj → JVal

/-- A JSON array of values. -/
inductive JArr where
  | nil : JArr
  | cons : JVal → JArr → JArr

/-- A JSON object: an insertion-ordered association of string keys to values,
as a Python dict produced by json.loads (keys are unique there). -/
inductive JObj where
  | nil : JObj
  | cons : String → JVal → JObj → JObj
end

mutual
/-- Structural equality of JSON trees (Python == on the decoded values). -/
def JVal.beq : JVal → JVal → Bool
  | .null, .null => true
  | .bool a, .bool b => a == b
  | .num a, .num b => a == b
  | .str a, .str b => a == b
  | .arr a, .arr b => JArr.beq a b
  | .obj a, .obj b => JObj.beq a b
  | _, _ => false

def JArr.beq : JArr → JArr → Bool
  | .nil, .nil => true
  | .cons a as, .cons b bs => JVal.beq a b && JArr.beq as bs
  | _, _ => false

def JObj.beq : JObj → JObj → Bool
  | .nil, .nil => true
  | .cons k v rest, .cons k2 v2 rest2 => k == k2 && JVal.beq v v2 && JObj.beq rest rest2
  | _, _ => false
end

/-- dict.get: the first binding of a key (keys of a loads-produced dict are
unique, so first-match equals Python lookup). -/
def JObj.find : JObj → String → Option JVal
  | .nil, _ => none
  | .cons k v rest, key => if k = key then some v else JObj.find rest key

/-- The keys of a JSON object, in insertion order. -/
def JObj.keys : JObj → List String
  | .nil => []
  | .cons k _ rest => k :: JObj.keys rest

/-- Whether every key of the object belongs to the given list (the keyword
names accepted by a call). -/
def JObj.allKeysIn : JObj → List String → Bool
  | .nil, _ => true
  | .cons k _ rest, allowed => decide (k ∈ allowed) && JObj.allKeysIn rest allowed

/-- Python exceptions that the modelled code paths can raise. -/
inductive PyErr where
  | attributeErr : PyErr
  | typeErr : PyErr
  | handlerErr : PyErr
  | invalidStateErr : PyErr
deriving DecidableEq

/-- The default values of Message.init: in Python,
def init(self, code, uuid=int(uuid.uuid4()), data=dict()) evaluates both
defaults ONCE, when the class body is executed; every later construction
that omits the argument reuses that same value.  The pair is therefore a
fixed ambient parameter of the whole module, not something sampled per
construction. -/
structure MsgDefaults where
  uuidDefault : JVal
  dataDefault : JVal

/-- Message: the attributes assigned by Message.init in message.py.  The
fields are untyped (any JSON value) because Python enforces none of the
annotations. -/
structure Message where
  uuid : JVal
  code : JVal
  data : JVal

/-- Message.init(code, uuid=defaults.uuidDefault, data=defaults.dataDefault):
an omitted argument falls back to the def-time default. -/
def Message.init (δ : MsgDefaults) (code : JVal) (uuid : Option JVal) (data : Option JVal) : Message :=
  { uuid := uuid.getD δ.uuidDefault, code := code, data := data.getD δ.dataDefault }

/-- Message.from_dict / the kwargs binding cls(**d): every key must be one of
the parameter names, code is required (it has no default), uuid and data fall
back to the def-time defaults; a non-dict argument or an unexpected or
missing keyword raises TypeError. -/
def Message.from_dict (δ : MsgDefaults) (d : JVal) : Except PyErr Message :=
  match d with
  | .obj fs =>
    if fs.allKeysIn ["uuid", "code", "data"] then
      match fs.find "code" with
      | some c => .ok (Message.init δ c (fs.find "uuid") (fs.find "data"))
      | none => .error .typeErr
    else .error .typeErr
  | _ => .error .typeErr

/-- Message.from_json(string) = cls(**json.loads(string)); json.loads is the
external text codec, so the input is its decoded JSON tree. -/
def Message.from_json (δ : MsgDefaults) (j : JVal) : Except PyErr Message :=
  Message.from_dict δ j

/-- Message.to_dict: the dict literal with exactly the keys uuid, code, data,
in that insertion order. -/
def Message.to_dict (m : Message) : JVal :=
  .obj (.cons "uuid" m.uuid (.cons "code" m.code (.cons "data" m.data .nil)))

/-- Message.to_json = json.dumps(self.to_dict()); json.dumps is the external
text codec, so the result is the JSON tree being serialized. -/
def Message.to_json (m : Message) : JVal :=
  m.to_dict

/-- Whether a JSON value is hashable in Python (usable as a dict key):
null, booleans, numbers and strings are; lists and dicts are not. -/
def JVal.hashable : JVal → Bool
  | .arr _ => false
  | .obj _ => false
  | _ => true

/-- A registered handler: an identity, whether it is a coroutine function
(asyncio.iscoroutinefunction), and whether running its body raises.  The
behaviour is per-handler; it is all the dispatch code can observe. -/
structure Handler where
  id : Nat
  isCoroutineFn : Bool
  raises : Bool
deriving DecidableEq

/-- The registered-callbacks dict: insertion-ordered map from code string to
the ordered list of handlers registered under it. -/
abbrev Callbacks := List (String × List Handler)

/-- dict.get(key, default empty list) on the callbacks dict (keys unique). -/
def getCallbacks : Callbacks → String → List Handler
  | [], _ => []
  | (k, hs) :: rest, key => if k = key then hs else getCallbacks rest key

/-- on_message / the on decorator: create the list for a fresh code
(appended at the end, Python dict insertion order) or append the handler to
the existing list. -/
def registerCallback : Callbacks → String → Handler → Callbacks
  | [], code, f => [(code, [f])]
  | (k, hs) :: rest, code, f =>
    if k = code then (k, hs ++ [f]) :: rest
    else (k, hs) :: registerCallback rest code f

/-- Handler lookup for an inbound code value: only a string can hit one of
the registered (string) keys; other hashable values simply miss.  The
unhashable case is handled by the dispatch functions before this lookup. -/
def lookupCode (cbs : Callbacks) : JVal → List Handler
  | .str s => getCallbacks cbs s
  | _ => []

/-- An asyncio future in the response_futures dict. -/
inductive Future where
  | pending : Future
  | resolved : Message → Future

/-- The response_futures dict. -/
abbrev Futures := List (JVal × Future)

/-- Dict membership plus lookup (keys unique, structural equality). -/
def findFuture : Futures → JVal → Option Future
  | [], _ => none
  | (k, f) :: rest, key => if JVal.beq k key then some f else findFuture rest key

/-- dict store d[key] = f: replace the binding if the key is present,
otherwise append it. -/
def storeFuture : Futures → JVal → Future → Futures
  | [], key, f => [(key, f)]
  | (k, g) :: rest, key, f =>
    if JVal.beq k key then (k, f) :: rest
    else (k, g) :: storeFuture rest key f

/-- dict.pop(key, None): drop the binding if present. -/
def popFuture : Futures → JVal → Futures
  | [], _ => []
  | (k, g) :: rest, key =>
    if JVal.beq k key then rest
    else (k, g) :: popFuture rest key

/-- The attributes a Client instance owns.  Client.init assigns
registed_callbacks, websocket (None until connect) and response_futures.
The events field stands for the attribute named events with a leading
underscore that dispatch_message reads: NO method of client.py ever assigns
it, so in every real execution it is absent (none) and reading it raises
AttributeError. -/
structure Client where
  registed_callbacks : Callbacks
  response_futures : Futures
  websocket : Bool
  events : Option Callbacks

/-- Client.init(url, log_level): the dicts start empty, the websocket is
None, and the events attribute is never created. -/
def Client.init : Client :=
  { registed_callbacks := [], response_futures := [], websocket := false, events := none }

/-- Client.on_message(code, func) (and the on decorator, which registers
identically and returns the function). -/
def Client.on_message (c : Client) (code : String) (f : Handler) : Client :=
  { c with registed_callbacks := registerCallback c.registed_callbacks code f }

/-- Client.connect: the websocket is set and the read loop task is started. -/
def Client.connect (c : Client) : Client :=
  { c with websocket := true }

/-- The client dispatch for-loop: a plain handler runs inline (its exception
propagates at once, aborting the loop); a coroutine function only has its
coroutine object appended to tasks.  Returns the ids invoked so far, the
collected coroutines, and the propagating exception if a plain handler
raised (in which case the collected coroutines are never awaited and so
never run). -/
def clientCollect : List Handler → List Nat → List Handler → List Nat × List Handler × Option PyErr
  | [], inv, pend => (inv, pend, none)
  | h :: rest, inv, pend =>
    if h.isCoroutineFn then clientCollect rest inv (pend ++ [h])
    else if h.raises then (inv ++ [h.id], pend, some .handlerErr)
    else clientCollect rest (inv ++ [h.id]) pend

/-- asyncio.gather over coroutines: every one is scheduled and runs exactly
once; if any raises, the first exception propagates out of the await (the
others still run). -/
def gatherCoroutines (pend : List Handler) : List Nat × Option PyErr :=
  (pend.map Handler.id, if pend.any (fun h => h.raises) then some .handlerErr else none)

/-- Client.dispatch_message: reads the events attribute, which Client.init
never created, so the lookup raises AttributeError before any handler talk;
the rest of the translation gives the behaviour the loop body would have if
the attribute were present (iterating codes (msg.code, ALL)).  Returns the
ids of the handlers whose bodies ran, and the exception propagating out of
the call, if any. -/
def Client.dispatch_message (c : Client) (msg : Message) : List Nat × Option PyErr :=
  match c.events with
  | none => ([], some .attributeErr)
  | some tbl =>
    if msg.code.hashable = false then ([], some .typeErr)
    else
      let matched := lookupCode tbl msg.code ++ getCallbacks tbl "ALL"
      match clientCollect matched [] [] with
      | (inv, _, some e) => (inv, some e)
      | (inv, pend, none) =>
        let g := gatherCoroutines pend
        (inv ++ g.1, g.2)

/-- The correlation step of process_message: if msg.uuid is in
response_futures, set_result(msg) on that future (set_result on an already
resolved future raises InvalidStateError; an unhashable uuid makes the
membership test raise TypeError); an absent uuid is a no-op. -/
def resolveFuture (c : Client) (msg : Message) : Client × Option PyErr :=
  if msg.uuid.hashable = false then (c, some .typeErr)
  else
    match findFuture c.response_futures msg.uuid with
    | none => (c, none)
    | some .pending =>
      ({ c with response_futures := storeFuture c.response_futures msg.uuid (.resolved msg) }, none)
    | some (.resolved _) => (c, some .invalidStateErr)

/-- The outcome of one process_message call: the client state after it, the
handlers whose bodies ran, and the exception caught by its except-block and
written to the log (none when no exception was raised). -/
structure ProcOut where
  client : Client
  invoked : List Nat
  logged : Option PyErr

/-- Client.process_message: inside one try-block, decode, then await
dispatch_message, then resolve a pending future with a matching uuid.  Any
exception from any of the three steps jumps to the except-block, which logs
it and returns, so an exception in dispatch skips the correlation step. -/
def Client.process_message (δ : MsgDefaults) (c : Client) (raw : JVal) : ProcOut :=
  match Message.from_json δ raw with
  | .error e => ⟨c, [], some e⟩
  | .ok msg =>
    match Client.dispatch_message c msg with
    | (inv, some e) => ⟨c, inv, some e⟩
    | (inv, none) =>
      let r := resolveFuture c msg
      ⟨r.1, inv, r.2⟩

/-- One frame of the inbound stream: a text frame carrying a decoded JSON
tree, or the transport reporting closure. -/
inductive Frame where
  | text : JVal → Frame
  | closed : Frame

/-- Client.message_handler: the async-for pulls frames until the transport
raises ConnectionClosed, which the handler catches, logs, and returns from —
touching nothing else (in particular no pending future). -/
def Client.message_handler (δ : MsgDefaults) (c : Client) : List Frame → Client
  | [] => c
  | .closed :: _ => c
  | .text j :: rest => Client.message_handler δ (Client.process_message δ c j).client rest

/-- What a pending blocking wait yields when its timeout expires:
asyncio.wait_for returns the result if the future was resolved before T,
and raises TimeoutError (no earlier than T) if it is still pending.
client.py never delivers any connection-closed outcome to a future, so the
outcome is a function of the future state alone. -/
inductive WaitOutcome where
  | replied : Message → WaitOutcome
  | timedOut : WaitOutcome
  | connectionClosed : WaitOutcome

/-- Evaluate a wait at its timeout instant from the future state. -/
def futureOutcomeAtTimeout (c : Client) (uuid : JVal) : WaitOutcome :=
  match findFuture c.response_futures uuid with
  | some (.resolved m) => .replied m
  | _ => .timedOut

/-- The outcome of one send_msg call: the returned value or propagating
exception, the client state afterwards, and whether the timeout warning was
logged. -/
structure SendOut where
  result : Except PyErr (Option Message)
  client : Client
  warnedTimeout : Bool

/-- Client.send_msg.  With no websocket the code only logs a critical line
and still calls send on None, raising AttributeError.  A blocking send
stores a fresh pending future under msg.uuid, then awaits it with
asyncio.wait_for: waitResolved is the environment decision — some resp when
the read loop resolved the future with resp before T elapsed (wait_for then
returns it in less than T), none when T elapsed with the future still
pending (wait_for raises TimeoutError no earlier than T; the except-block
logs the timeout warning and the call returns None).  Either way the
finally-block pops the slot. -/
def Client.send_msg (c : Client) (msg : Message) (blocking : Bool) (waitResolved : Option Message) : SendOut :=
  if c.websocket = false then ⟨.error .attributeErr, c, false⟩
  else if blocking then
    if msg.uuid.hashable = false then ⟨.error .typeErr, c, false⟩
    else
      let c1 := { c with response_futures := storeFuture c.response_futures msg.uuid .pending }
      match waitResolved with
      | some resp =>
        ⟨.ok (some resp), { c1 with response_futures := popFuture c1.response_futures msg.uuid }, false⟩
      | none =>
        ⟨.ok none, { c1 with response_futures := popFuture c1.response_futures msg.uuid }, true⟩
  else ⟨.ok none, c, false⟩

/-- A task collected by the server dispatch loop: the coroutine object of a
coroutine-function handler, or the plain return value of a non-coroutine
handler (not awaitable). -/
inductive STask where
  | coro : Handler → STask
  | value : STask

/-- The server dispatch for-loop: tasks.append(func(msg, ws)) calls every
handler at collection time.  A coroutine function merely creates its
coroutine; a plain function executes here — if it raises, the loop aborts
and the collected coroutines are never awaited; otherwise its (non-
awaitable) return value is appended. -/
def serverCollect : List Handler → List Nat → List STask → List Nat × List STask × Option PyErr
  | [], inv, tasks => (inv, tasks, none)
  | h :: rest, inv, tasks =>
    if h.isCoroutineFn then serverCollect rest inv (tasks ++ [.coro h])
    else if h.raises then (inv ++ [h.id], tasks, some .handlerErr)
    else serverCollect rest (inv ++ [h.id]) (tasks ++ [.value])

/-- asyncio.gather begins by turning each argument, in order, into a
scheduled task; a non-awaitable argument raises TypeError there, so the
arguments before it are already scheduled (and will run) while those after
it never run.  Returns the scheduled handlers and the TypeError if one
occurred. -/
def ensureWalk : List STask → List Handler × Option PyErr
  | [] => ([], none)
  | .coro h :: rest =>
    let r := ensureWalk rest
    (h :: r.1, r.2)
  | .value :: _ => ([], some .typeErr)

/-- Server.dispatch_message: iterate codes (msg.code, ALL) over the
registered-callbacks dict (an unhashable code raises TypeError at the
lookup), collect and gather.  Every scheduled coroutine runs exactly once;
the propagating exception is the TypeError from a non-awaitable task if
any, else the first handler exception. -/
def Server.dispatch_message (cbs : Callbacks) (msg : Message) : List Nat × Option PyErr :=
  if msg.code.hashable = false then ([], some .typeErr)
  else
    let matched := lookupCode cbs msg.code ++ getCallbacks cbs "ALL"
    match serverCollect matched [] [] with
    | (inv, _, some e) => (inv, some e)
    | (inv, tasks, none) =>
      let w := ensureWalk tasks
      let gerr := match w.2 with
        | some e => some e
        | none => if w.1.any (fun h => h.raises) then some .handlerErr else none
      (inv ++ w.1.map Handler.id, gerr)

/-- The outcome of one server process_message call: the handlers whose
bodies ran and the exception its except-block caught and logged. -/
structure SProcOut where
  invoked : List Nat
  logged : Option PyErr

/-- Server.process_message: decode and dispatch inside one try-block; any
exception is caught and logged, never propagated to the connection loop. -/
def Server.process_message (δ : MsgDefaults) (cbs : Callbacks) (raw : JVal) : SProcOut :=
  match Message.from_json δ raw with
  | .error e => ⟨[], some e⟩
  | .ok msg =>
    let r := Server.dispatch_message cbs msg
    ⟨r.1, r.2⟩

/-- Server.handle_connection body during Open: the async-for feeds every
received frame to process_message; since that catches all exceptions, each
frame of the stream is processed. -/
def Server.handle_frames (δ : MsgDefaults) (cbs : Callbacks) (frames : List JVal) : List SProcOut :=
  frames.map (Server.process_message δ cbs)

/-! Reference-semantics refinement of the data default: in Python the
def-time default dict() is a single mutable object, and every Message built
without a data argument holds a reference to that one object.  A heap maps
references (indices) to dict contents. -/

/-- A heap of dict objects; a reference is an index into it. -/
structure RHeap where
  cells : List JObj

/-- Dereference (reads of a dangling reference cannot arise in the modelled
executions; total via an empty-dict default). -/
def RHeap.read (h : RHeap) (r : Nat) : JObj :=
  h.cells.getD r .nil

/-- Overwrite the object a reference points to. -/
def RHeap.write (h : RHeap) (r : Nat) (d : JObj) : RHeap :=
  ⟨h.cells.set r d⟩

/-- Executing the class body of Message evaluates dict() once, allocating
the single default data object; reference 0 names it for the lifetime of
the process. -/
def classBodyHeap : RHeap := ⟨[JObj.nil]⟩

/-- The reference to the one def-time default dict. -/
def defaultDataRef : Nat := 0

/-- A Message under reference semantics: the data attribute holds a
reference to a dict object. -/
structure MessageRef where
  uuid : JVal
  code : JVal
  dataRef : Nat

/-- Message.init under reference semantics: omitting the data argument makes
the new instance alias the single def-time default dict — no fresh dict is
allocated. -/
def MessageRef.init (δu : JVal) (code : JVal) (uuid : Option JVal) (data : Option Nat) : MessageRef :=
  { uuid := uuid.getD δu, code := code, dataRef := data.getD defaultDataRef }

/-- d[k] = v on a dict: overwrite the value of an existing key or append a
new binding. -/
def JObj.setKey : JObj → String → JVal → JObj
  | .nil, k, v => .cons k v .nil
  | .cons k2 v2 rest, k, v =>
    if k2 = k then .cons k2 v rest else .cons k2 v2 (JObj.setKey rest k v)

/-- m.data[k] = v: mutate the dict object the message references. -/
def dictAssign (h : RHeap) (m : MessageRef) (k : String) (v : JVal) : RHeap :=
  h.write m.dataRef ((h.read m.dataRef).setKey k v)

/-- m.data: the current contents of the referenced dict object. -/
def readData (h : RHeap) (m : MessageRef) : JObj :=
  h.read m.dataRef

/-! Helper lemmas shared by the claim proofs. -/

mutual
/-- Structural JSON equality is reflexive. -/
theorem jvalBeqRefl : (v : JVal) → JVal.beq v v = true
  | .null => rfl
  | .bool b => by simp [JVal.beq]
  | .num n => by simp [JVal.beq]
  | .str s => by simp [JVal.beq]
  | .arr a => by simp [JVal.beq, jarrBeqRefl a]
  | .obj o => by simp [JVal.beq, jobjBeqRefl o]

theorem jarrBeqRefl : (a : JArr) → JArr.beq a a = true
  | .nil => rfl
  | .cons v as => by simp [JArr.beq, jvalBeqRefl v, jarrBeqRefl as]

theorem jobjBeqRefl : (o : JObj) → JObj.beq o o = true
  | .nil => rfl
  | .cons k v rest => by simp [JObj.beq, jvalBeqRefl v, jobjBeqRefl rest]
end

/-- Storing a fresh key appends its binding at the end (dict insertion
order). -/
theorem storeFuture_of_find_none (fs : Futures) (k : JVal) (f : Future)
    (h : findFuture fs k = none) : storeFuture fs k f = fs ++ [(k, f)] := by
  induction fs with
  | nil => rfl
  | cons p rest ih =>
    obtain ⟨k0, g⟩ := p
    by_cases hb : JVal.beq k0 k = true
    · simp [findFuture, hb] at h
    · simp only [findFuture, hb, if_neg, Bool.false_eq_true, if_false] at h
      simp [storeFuture, hb, ih h]

/-- Popping a key absent from the prefix removes exactly the appended
binding. -/
theorem popFuture_append_of_find_none (fs : Futures) (k : JVal) (f : Future)
    (h : findFuture fs k = none) : popFuture (fs ++ [(k, f)]) k = fs := by
  induction fs with
  | nil => simp [popFuture, jvalBeqRefl]
  | cons p rest ih =>
    obtain ⟨k0, g⟩ := p
    by_cases hb : JVal.beq k0 k = true
    · simp [findFuture, hb] at h
    · simp only [findFuture, hb, Bool.false_eq_true, if_false] at h
      simp [popFuture, hb, ih h]

/-- Register-then-pop on a fresh key leaves no binding for it. -/
theorem findFuture_store_pop (fs : Futures) (k : JVal) (f : Future)
    (h : findFuture fs k = none) :
    findFuture (popFuture (storeFuture fs k f) k) k = none := by
  rw [storeFuture_of_find_none fs k f h, popFuture_append_of_find_none fs k f h, h]

/-- Round trip at the JSON-tree level (used by several claim proofs). -/
theorem from_json_to_json (δ : MsgDefaults) (m : Message) :
    Message.from_json δ (Message.to_json m) = .ok m := by
  cases m
  rfl

/-- Every handler found under a key was registered in the table. -/
theorem mem_of_mem_getCallbacks (cbs : Callbacks) (k : String) (h : Handler)
    (hm : h ∈ getCallbacks cbs k) : ∃ p ∈ cbs, h ∈ p.2 := by
  induction cbs with
  | nil => simp [getCallbacks] at hm
  | cons p rest ih =>
    obtain ⟨k0, hs⟩ := p
    by_cases hk : k0 = k
    · subst hk
      simp [getCallbacks] at hm
      exact ⟨(k0, hs), by simp, hm⟩
    · simp [getCallbacks, hk] at hm
      obtain ⟨q, hq, hhq⟩ := ih hm
      exact ⟨q, by simp [hq], hhq⟩

/-- Collecting only coroutine functions invokes nothing and appends every
coroutine, in order. -/
theorem serverCollect_coro (l : List Handler) (hl : ∀ h ∈ l, h.isCoroutineFn = true) :
    ∀ inv tasks, serverCollect l inv tasks = (inv, tasks ++ l.map STask.coro, none) := by
  induction l with
  | nil => intro inv tasks; simp [serverCollect]
  | cons h t ih =>
    intro inv tasks
    have hh : h.isCoroutineFn = true := hl h (by simp)
    have ht : ∀ x ∈ t, x.isCoroutineFn = true := fun x hx => hl x (by simp [hx])
    simp [serverCollect, hh, ih ht]

/-- Ensuring a list of coroutines schedules all of them and raises nothing. -/
theorem ensureWalk_coro (l : List Handler) :
    ensureWalk (l.map STask.coro) = (l, none) := by
  induction l with
  | nil => rfl
  | cons h t ih => simp [ensureWalk, ih]

/-- The same, in the appended shape the dispatch proof reaches. -/
theorem ensureWalk_coro_append (l1 l2 : List Handler) :
    ensureWalk (l1.map STask.coro ++ l2.map STask.coro) = (l1 ++ l2, none) := by
  rw [← List.map_append, ensureWalk_coro]

/-- Every handler matched by an inbound code value was registered. -/
theorem mem_of_mem_lookupCode (cbs : Callbacks) (v : JVal) (h : Handler)
    (hm : h ∈ lookupCode cbs v) : ∃ p ∈ cbs, h ∈ p.2 := by
  cases v <;> simp [lookupCode] at hm
  case str s => exact mem_of_mem_getCallbacks cbs s h hm

/-- When every registered handler is a coroutine function, the server
dispatch invokes exactly the matched handlers, in match order, and the
propagating exception is the first handler exception if any. -/
theorem serverDispatch_allCoro (cbs : Callbacks) (msg : Message)
    (hA : ∀ p ∈ cbs, ∀ h ∈ p.2, h.isCoroutineFn = true)
    (hc : msg.code.hashable = true) :
    Server.dispatch_message cbs msg
      = ((lookupCode cbs msg.code ++ getCallbacks cbs "ALL").map Handler.id,
         if (lookupCode cbs msg.code ++ getCallbacks cbs "ALL").any (fun h => h.raises)
         then some PyErr.handlerErr else none) := by
  have hmatched : ∀ h ∈ lookupCode cbs msg.code ++ getCallbacks cbs "ALL", h.isCoroutineFn = true := by
    intro h hm
    rcases List.mem_append.mp hm with hm1 | hm2
    · obtain ⟨p, hp, hhp⟩ := mem_of_mem_lookupCode cbs msg.code h hm1
      exact hA p hp h hhp
    · obtain ⟨p, hp, hhp⟩ := mem_of_mem_getCallbacks cbs "ALL" h hm2
      exact hA p hp h hhp
  unfold Server.dispatch_message
  rw [hc]
  simp only [Bool.true_eq_false, if_false]
  rw [serverCollect_coro _ hmatched [] []]
  simp [ensureWalk_coro_append]


/-! Concrete states used by the claim theorems and witnesses. -/

/-- A stand-in for the def-time defaults of Message.init (their concrete
values are irrelevant to the closed scenarios, which always pass every
field explicitly or inspect only the sharing structure). -/
def defaults0 : MsgDefaults :=
  { uuidDefault := JVal.num 99, dataDefault := JVal.obj JObj.nil }

/-- A connected client with one blocking send pending under id 1 and no
registered handler, exactly the state send_msg leaves while awaiting. -/
def c1state : Client :=
  { registed_callbacks := [], response_futures := [(JVal.num 1, Future.pending)],
    websocket := true, events := none }

/-- The matching reply the server sends back for the pending id 1. -/
def c1reply : Message :=
  { uuid := JVal.num 1, code := JVal.str "PONG", data := JVal.obj JObj.nil }

/-- C1.  The claim: a blocking send whose matching reply arrives before the
timeout returns that reply.  In the code, processing the reply frame first
awaits dispatch_message, which reads the never-assigned events attribute and
raises AttributeError; the except-block logs it and the correlation step is
never reached, so the pending future stays pending and the wait can only end
in the timeout, returning the no-reply outcome instead of the reply. -/
theorem C1_reply_before_timeout_lost :
    c1reply.uuid = JVal.num 1
    ∧ (Client.process_message defaults0 c1state (Message.to_json c1reply)).logged
        = some PyErr.attributeErr
    ∧ (Client.process_message defaults0 c1state (Message.to_json c1reply)).client.response_futures
        = [(JVal.num 1, Future.pending)]
    ∧ futureOutcomeAtTimeout
        (Client.process_message defaults0 c1state (Message.to_json c1reply)).client (JVal.num 1)
        = WaitOutcome.timedOut :=
  ⟨rfl, rfl, rfl, rfl⟩

/-- A connected client with a handler registered for PONG and a blocking
send pending under id 1. -/
def c2state : Client :=
  { registed_callbacks := [("PONG", [{ id := 7, isCoroutineFn := true, raises := false }])],
    response_futures := [(JVal.num 1, Future.pending)],
    websocket := true, events := none }

/-- C2.  The claim: every inbound message triggers both the handler fan-out
and the correlation check.  In the code, dispatch_message raises
AttributeError on the never-assigned events attribute before invoking any
handler, and the exception skips the correlation step too: a message that is
both a correlated reply and matches a registered code triggers neither
path. -/
theorem C2_neither_dispatch_nor_correlation_happens :
    (Client.process_message defaults0 c2state (Message.to_json c1reply)).invoked = []
    ∧ (Client.process_message defaults0 c2state (Message.to_json c1reply)).client.response_futures
        = [(JVal.num 1, Future.pending)]
    ∧ (Client.process_message defaults0 c2state (Message.to_json c1reply)).logged
        = some PyErr.attributeErr :=
  ⟨rfl, rfl, rfl⟩

/-- A connected client with a blocking send pending under id 7 when the
transport closes. -/
def c3state : Client :=
  { registed_callbacks := [], response_futures := [(JVal.num 7, Future.pending)],
    websocket := true, events := none }

/-- C3 counterexample.  The claim: transport closure mid-wait unblocks the
pending wait promptly with a ConnectionClosed outcome.  In the code,
message_handler catches the closure, logs, and returns without touching
response_futures, so the pending wait runs out its full timeout: the
outcome is TimedOut, not ConnectionClosed. -/
theorem C3_close_leaves_wait_to_time_out :
    futureOutcomeAtTimeout (Client.message_handler defaults0 c3state [Frame.closed]) (JVal.num 7)
      = WaitOutcome.timedOut
    ∧ WaitOutcome.timedOut ≠ WaitOutcome.connectionClosed :=
  ⟨rfl, fun h => nomatch h⟩

/-- C3 as amended: when the transport closes while a wait is pending, the
read loop resolves nothing; the pending wait is still pending afterwards and
therefore ends in the silent timeout (send_msg logs a warning and returns
None), never in a ConnectionClosed outcome. -/
theorem C3_close_never_resolves_pending_wait (δ : MsgDefaults) (c : Client) (uuid : JVal)
    (h : findFuture c.response_futures uuid = some Future.pending) :
    futureOutcomeAtTimeout (Client.message_handler δ c [Frame.closed]) uuid
      = WaitOutcome.timedOut := by
  show futureOutcomeAtTimeout c uuid = WaitOutcome.timedOut
  unfold futureOutcomeAtTimeout
  rw [h]

/-- Witness for C3: the amended theorem applied at the concrete closing
scenario. -/
theorem C3_close_never_resolves_pending_wait_witness :
    findFuture c3state.response_futures (JVal.num 7) = some Future.pending
    ∧ futureOutcomeAtTimeout (Client.message_handler defaults0 c3state [Frame.closed]) (JVal.num 7)
        = WaitOutcome.timedOut :=
  ⟨rfl, C3_close_never_resolves_pending_wait defaults0 c3state (JVal.num 7) rfl⟩

/-- C4.  The claim: two constructions without an explicit id get distinct
fresh ids.  In the code the default uuid is int(uuid.uuid4()) evaluated
once, at class-definition time; every construction that omits the argument
reuses that single value, whatever it happened to be, so any two such
messages share one id. -/
theorem C4_default_id_shared_across_constructions
    (δ : MsgDefaults) (code1 code2 : JVal) (d1 d2 : Option JVal) :
    (Message.init δ code1 none d1).uuid = (Message.init δ code2 none d2).uuid :=
  rfl

/-- C5.  The claim: each construction without a payload gets its own fresh
empty container, and updating one payload is invisible through the other.
In the code the default data dict() is evaluated once at class-definition
time and shared by reference: both messages start with the (same) empty
dict, and a key written through the first message is read back through the
second. -/
theorem C5_default_payload_aliased :
    readData classBodyHeap (MessageRef.init (JVal.num 0) (JVal.str "A") none none) = JObj.nil
    ∧ readData classBodyHeap (MessageRef.init (JVal.num 0) (JVal.str "B") none none) = JObj.nil
    ∧ readData
        (dictAssign classBodyHeap (MessageRef.init (JVal.num 0) (JVal.str "A") none none)
          "k" (JVal.num 1))
        (MessageRef.init (JVal.num 0) (JVal.str "B") none none)
      = JObj.cons "k" (JVal.num 1) JObj.nil :=
  ⟨rfl, rfl, rfl⟩

/-- C6.  The round-trip law: decoding the wire form produced by encoding a
Message reproduces its id, code and payload exactly (all fields of the
model are JSON-representable by construction).  from_json receives exactly
the keys uuid, code, data that to_json emitted, binds them to the matching
parameters of Message.init, and every field comes back unchanged. -/
theorem C6_encode_decode_round_trip (δ : MsgDefaults) (m : Message) :
    Message.from_json δ (Message.to_json m) = Except.ok m :=
  from_json_to_json δ m

/-- The field names of the wire encoding of a message, in order. -/
def wireKeys (m : Message) : List String :=
  match Message.to_json m with
  | .obj fs => fs.keys
  | _ => []

/-- The value the wire encoding carries under a field name. -/
def wireField (m : Message) (k : String) : Option JVal :=
  match Message.to_json m with
  | .obj fs => fs.find k
  | _ => none

/-- Whether a JSON value is a number. -/
def JVal.isNum : JVal → Bool
  | .num _ => true
  | _ => false

/-- Whether a JSON value is a string. -/
def JVal.isStr : JVal → Bool
  | .str _ => true
  | _ => false

/-- Whether a JSON value is an object. -/
def JVal.isObj : JVal → Bool
  | .obj _ => true
  | _ => false

/-- A concrete well-formed message as the examples build them. -/
def c7msg : Message :=
  Message.init defaults0 (JVal.str "PING") (some (JVal.num 1)) (some (JVal.obj JObj.nil))

/-- C7 counterexample.  The claim: the wire object has exactly the fields
id, code, data.  The encoder writes the identifier under the key uuid, so
the concrete encoding has key list [uuid, code, data] and no field named
id at all. -/
theorem C7_wire_field_named_uuid_not_id :
    wireKeys c7msg = ["uuid", "code", "data"]
    ∧ "id" ∉ wireKeys c7msg :=
  ⟨rfl, by decide⟩

/-- C7 as amended: for every message whose identifier is a number, code a
string and payload an object, the wire encoding is an object with exactly
the three fields uuid (number), code (string), data (object) — the claim
holds with the identifier field named uuid instead of id. -/
theorem C7_wire_has_exactly_uuid_code_data_fields (m : Message)
    (hu : m.uuid.isNum = true) (hc : m.code.isStr = true) (hd : m.data.isObj = true) :
    wireKeys m = ["uuid", "code", "data"]
    ∧ (wireField m "uuid").map JVal.isNum = some true
    ∧ (wireField m "code").map JVal.isStr = some true
    ∧ (wireField m "data").map JVal.isObj = some true := by
  refine ⟨rfl, ?_, ?_, ?_⟩
  · rw [show (wireField m "uuid").map JVal.isNum = some m.uuid.isNum from rfl, hu]
  · rw [show (wireField m "code").map JVal.isStr = some m.code.isStr from rfl, hc]
  · rw [show (wireField m "data").map JVal.isObj = some m.data.isObj from rfl, hd]

/-- Witness for C7: the amended theorem applied at the concrete example
message. -/
theorem C7_wire_has_exactly_uuid_code_data_fields_witness :
    (c7msg.uuid.isNum = true ∧ c7msg.code.isStr = true ∧ c7msg.data.isObj = true)
    ∧ wireKeys c7msg = ["uuid", "code", "data"]
    ∧ (wireField c7msg "uuid").map JVal.isNum = some true
    ∧ (wireField c7msg "code").map JVal.isStr = some true
    ∧ (wireField c7msg "data").map JVal.isObj = some true :=
  ⟨⟨rfl, rfl, rfl⟩, C7_wire_has_exactly_uuid_code_data_fields c7msg rfl rfl rfl⟩

/-- A server table with a plain (non-coroutine) handler that raises,
followed by a coroutine handler, both registered for PING. -/
def c8cbs : Callbacks :=
  [("PING", [{ id := 1, isCoroutineFn := false, raises := true },
             { id := 2, isCoroutineFn := true, raises := false }])]

/-- The inbound PING message of the C8 scenario. -/
def c8msg : Message :=
  Message.init defaults0 (JVal.str "PING") (some (JVal.num 5)) (some (JVal.obj JObj.nil))

/-- C8 counterexample.  The claim: when one matched handler raises, every
sibling matched handler is still invoked exactly once.  Handler 1 is a
plain function that raises while the dispatch loop is collecting tasks, so
sibling handler 2, though matched, is never invoked; the exception is still
caught and logged by process_message and the read loop still processes the
next frame. -/
theorem C8_sync_raise_skips_sibling :
    (lookupCode c8cbs c8msg.code ++ getCallbacks c8cbs "ALL").map Handler.id = [1, 2]
    ∧ Server.dispatch_message c8cbs c8msg = ([1], some PyErr.handlerErr)
    ∧ 2 ∉ (Server.dispatch_message c8cbs c8msg).1
    ∧ (Server.handle_frames defaults0 c8cbs [Message.to_json c8msg, Message.to_json c8msg]).length
        = 2 :=
  ⟨rfl, rfl, by decide, rfl⟩

/-- C8 as amended: when every registered handler is a coroutine function,
a handler exception during dispatch is caught at the message-processing
boundary and logged, every matched handler (the raising one and all its
siblings) is invoked exactly once — the invocation list is exactly the
match list — and the read loop goes on to process every further frame. -/
theorem C8_async_handler_error_contained (δ : MsgDefaults) (cbs : Callbacks) (msg : Message)
    (frames : List JVal)
    (hA : ∀ p ∈ cbs, ∀ h ∈ p.2, h.isCoroutineFn = true)
    (hc : msg.code.hashable = true) :
    (Server.dispatch_message cbs msg).1
        = (lookupCode cbs msg.code ++ getCallbacks cbs "ALL").map Handler.id
    ∧ (Server.process_message δ cbs (Message.to_json msg)).invoked
        = (Server.dispatch_message cbs msg).1
    ∧ (Server.process_message δ cbs (Message.to_json msg)).logged
        = (Server.dispatch_message cbs msg).2
    ∧ ((Server.dispatch_message cbs msg).2 = none
        ∨ (Server.dispatch_message cbs msg).2 = some PyErr.handlerErr)
    ∧ (Server.handle_frames δ cbs frames).length = frames.length := by
  have hd := serverDispatch_allCoro cbs msg hA hc
  have hp : Server.process_message δ cbs (Message.to_json msg)
      = ⟨(Server.dispatch_message cbs msg).1, (Server.dispatch_message cbs msg).2⟩ := by
    unfold Server.process_message
    rw [from_json_to_json]
  refine ⟨by rw [hd], by rw [hp], by rw [hp], ?_, by simp [Server.handle_frames]⟩
  rw [hd]
  by_cases hr : (lookupCode cbs msg.code ++ getCallbacks cbs "ALL").any (fun h => h.raises) = true
  · right; simp [hr]
  · left; simp [hr]

/-- A server table with two coroutine handlers for PING, the first of which
raises, plus a wildcard coroutine handler. -/
def c8wcbs : Callbacks :=
  [("PING", [{ id := 1, isCoroutineFn := true, raises := true },
             { id := 2, isCoroutineFn := true, raises := false }]),
   ("ALL", [{ id := 3, isCoroutineFn := true, raises := false }])]

/-- Witness for C8: the amended theorem applied at a table where handler 1
raises; handlers 1, 2 and 3 are each invoked once, the exception is logged,
and both frames of the stream are processed. -/
theorem C8_async_handler_error_contained_witness :
    ((∀ p ∈ c8wcbs, ∀ h ∈ p.2, h.isCoroutineFn = true) ∧ c8msg.code.hashable = true)
    ∧ ((Server.dispatch_message c8wcbs c8msg).1
        = (lookupCode c8wcbs c8msg.code ++ getCallbacks c8wcbs "ALL").map Handler.id
      ∧ (Server.process_message defaults0 c8wcbs (Message.to_json c8msg)).invoked
          = (Server.dispatch_message c8wcbs c8msg).1
      ∧ (Server.process_message defaults0 c8wcbs (Message.to_json c8msg)).logged
          = (Server.dispatch_message c8wcbs c8msg).2
      ∧ ((Server.dispatch_message c8wcbs c8msg).2 = none
          ∨ (Server.dispatch_message c8wcbs c8msg).2 = some PyErr.handlerErr)
      ∧ (Server.handle_frames defaults0 c8wcbs
            [Message.to_json c8msg, Message.to_json c8msg]).length = 2) :=
  ⟨⟨by decide, rfl⟩,
   C8_async_handler_error_contained defaults0 c8wcbs c8msg
     [Message.to_json c8msg, Message.to_json c8msg] (by decide) rfl⟩

/-- C9.  A blocking send whose wait hits the timeout (asyncio.wait_for
raises TimeoutError no earlier than T, the external wait_for contract):
the call logs the timeout warning and returns the no-reply outcome None
non-exceptionally, the finally-block removes the correlation slot for the
id, and a subsequent blocking send reusing the same id completes without
any duplicate-pending error (the code raises none). -/
theorem C9_timeout_nonfatal_and_slot_removed (c : Client) (msg : Message) (w : Option Message)
    (hw : c.websocket = true) (hu : msg.uuid.hashable = true)
    (hf : findFuture c.response_futures msg.uuid = none) :
    (Client.send_msg c msg true none).result = Except.ok none
    ∧ (Client.send_msg c msg true none).warnedTimeout = true
    ∧ findFuture (Client.send_msg c msg true none).client.response_futures msg.uuid = none
    ∧ ∃ v, (Client.send_msg (Client.send_msg c msg true none).client msg true w).result
            = Except.ok v := by
  have h1 : Client.send_msg c msg true none
      = ⟨Except.ok none,
         { c with response_futures :=
             popFuture (storeFuture c.response_futures msg.uuid Future.pending) msg.uuid },
         true⟩ := by
    simp [Client.send_msg, hw, hu]
  refine ⟨by rw [h1], by rw [h1], ?_, ?_⟩
  · rw [h1]
    exact findFuture_store_pop _ _ _ hf
  · rw [h1]
    cases w with
    | none => exact ⟨none, by simp [Client.send_msg, hw, hu]⟩
    | some resp => exact ⟨some resp, by simp [Client.send_msg, hw, hu]⟩

/-- A freshly connected client with no pending wait. -/
def c9client : Client :=
  Client.connect Client.init

/-- The message of the C9 scenario. -/
def c9msg : Message :=
  Message.init defaults0 (JVal.str "PING") (some (JVal.num 3)) (some (JVal.obj JObj.nil))

/-- Witness for C9: the theorem applied at the fresh connected client. -/
theorem C9_timeout_nonfatal_and_slot_removed_witness :
    (c9client.websocket = true ∧ c9msg.uuid.hashable = true
      ∧ findFuture c9client.response_futures c9msg.uuid = none)
    ∧ ((Client.send_msg c9client c9msg true none).result = Except.ok none
      ∧ (Client.send_msg c9client c9msg true none).warnedTimeout = true
      ∧ findFuture (Client.send_msg c9client c9msg true none).client.response_futures c9msg.uuid
          = none
      ∧ ∃ v, (Client.send_msg (Client.send_msg c9client c9msg true none).client c9msg true none).result
              = Except.ok v) :=
  ⟨⟨rfl, rfl, rfl⟩, C9_timeout_nonfatal_and_slot_removed c9client c9msg none rfl rfl rfl⟩

/-- C10.  The server dispatch loop iterates the pair (msg.code, ALL): for a
message whose code is exactly the wildcard string ALL, both iterations hit
the same list, so every handler registered under ALL is invoked twice
(its invocation count doubles its registration count), whereas for any
other code every matched handler is invoked exactly once per registration
(its count is the sum over the code list and the wildcard list).  Stated
for coroutine handlers, which is what the dispatch awaits. -/
theorem C10_wildcard_code_doubles_wildcard_handlers (cbs : Callbacks) (s : String) (n : Nat)
    (mAll mOther : Message)
    (hA : ∀ p ∈ cbs, ∀ h ∈ p.2, h.isCoroutineFn = true)
    (h1 : mAll.code = JVal.str "ALL") (h2 : mOther.code = JVal.str s) (_hs : s ≠ "ALL") :
    ((Server.dispatch_message cbs mAll).1).count n
        = 2 * (((getCallbacks cbs "ALL").map Handler.id).count n)
    ∧ ((Server.dispatch_message cbs mOther).1).count n
        = (((getCallbacks cbs s).map Handler.id).count n)
          + (((getCallbacks cbs "ALL").map Handler.id).count n) := by
  have hcAll : mAll.code.hashable = true := by rw [h1]; rfl
  have hcO : mOther.code.hashable = true := by rw [h2]; rfl
  have dAll := serverDispatch_allCoro cbs mAll hA hcAll
  have dO := serverDispatch_allCoro cbs mOther hA hcO
  constructor
  · rw [dAll, h1]
    simp [lookupCode, List.count_append, Nat.two_mul]
  · rw [dO, h2]
    simp [lookupCode, List.count_append]

/-- One coroutine handler under PING and one under the wildcard ALL. -/
def c10cbs : Callbacks :=
  [("PING", [{ id := 1, isCoroutineFn := true, raises := false }]),
   ("ALL", [{ id := 2, isCoroutineFn := true, raises := false }])]

/-- An inbound message whose code is the wildcard string itself. -/
def c10mAll : Message :=
  Message.init defaults0 (JVal.str "ALL") (some (JVal.num 4)) (some (JVal.obj JObj.nil))

/-- An inbound PING message. -/
def c10mPing : Message :=
  Message.init defaults0 (JVal.str "PING") (some (JVal.num 6)) (some (JVal.obj JObj.nil))

/-- Witness for C10: the wildcard handler (id 2) runs twice for a message
with code ALL and once for a PING message. -/
theorem C10_wildcard_code_doubles_wildcard_handlers_witness :
    ((∀ p ∈ c10cbs, ∀ h ∈ p.2, h.isCoroutineFn = true)
      ∧ c10mAll.code = JVal.str "ALL" ∧ c10mPing.code = JVal.str "PING" ∧ "PING" ≠ "ALL")
    ∧ (((Server.dispatch_message c10cbs c10mAll).1).count 2
          = 2 * (((getCallbacks c10cbs "ALL").map Handler.id).count 2)
      ∧ ((Server.dispatch_message c10cbs c10mPing).1).count 2
          = (((getCallbacks c10cbs "PING").map Handler.id).count 2)
            + (((getCallbacks c10cbs "ALL").map Handler.id).count 2)) :=
  ⟨⟨by decide, rfl, rfl, by decide⟩,
   C10_wildcard_code_doubles_wildcard_handlers c10cbs "PING" 2 c10mAll c10mPing
     (by decide) rfl rfl (by decide)⟩
